import Mathlib

/- Shallow embedding of the gosfv checksum-file engine (internal/sfv/sfv.go).
   Go strings are modelled as List Char, byte streams as List Nat (each byte
   below 256 in real streams; the hash models mask where Go works modulo 2^32),
   and the filesystem as a total map from filenames to probe outcomes.
   The hash primitives model the Go standard library functions the engine
   calls: hash/crc32 (IEEE, reflected), crypto/md5 (RFC 1321), crypto/sha1
   (FIPS 180-1) and crypto/sha256 (FIPS 180-4). -/

namespace Gosfv

/- 32-bit helpers: Go arithmetic on uint32 is Nat arithmetic modulo 2^32. -/

def mask32 (x : Nat) : Nat := x % 4294967296

def rotl32 (x n : Nat) : Nat := mask32 ((x <<< n) ||| (x >>> (32 - n)))

def rotr32 (x n : Nat) : Nat := mask32 ((x >>> n) ||| (x <<< (32 - n)))

/- Byte serialisation of 32- and 64-bit words, little and big endian. -/

def le32 (w : Nat) : List Nat := [w % 256, w / 256 % 256, w / 65536 % 256, w / 16777216 % 256]

def be32 (w : Nat) : List Nat := [w / 16777216 % 256, w / 65536 % 256, w / 256 % 256, w % 256]

def le64Bytes (n : Nat) : List Nat := le32 (n % 4294967296) ++ le32 (n / 4294967296 % 4294967296)

def be64Bytes (n : Nat) : List Nat := be32 (n / 4294967296 % 4294967296) ++ be32 (n % 4294967296)

/- Grouping a byte stream into 32-bit words. -/

def leWords : List Nat → List Nat
  | a :: b :: c :: d :: rest =>
      ((a % 256) + 256 * (b % 256) + 65536 * (c % 256) + 16777216 * (d % 256)) :: leWords rest
  | _ => []

def beWords : List Nat → List Nat
  | a :: b :: c :: d :: rest =>
      (16777216 * (a % 256) + 65536 * (b % 256) + 256 * (c % 256) + (d % 256)) :: beWords rest
  | _ => []

/- Iterate a compression function over successive 16-word blocks. -/

def blocks16 {α : Type} (comp : α → List Nat → α) : α → List Nat → α
  | st, w0 :: w1 :: w2 :: w3 :: w4 :: w5 :: w6 :: w7 :: w8 :: w9 :: wa :: wb :: wc :: wd :: we :: wf :: rest =>
      blocks16 comp (comp st [w0, w1, w2, w3, w4, w5, w6, w7, w8, w9, wa, wb, wc, wd, we, wf]) rest
  | st, _ => st

/- Merkle-Damgard padding: 128, zeros to 56 mod 64, then the 8-byte bit
   length (little endian for MD5, big endian for SHA-1 and SHA-256). -/

def padMD (m : List Nat) : List Nat :=
  m ++ 128 :: (List.replicate ((119 - m.length % 64) % 64) 0 ++ le64Bytes (m.length * 8))

def padSHA (m : List Nat) : List Nat :=
  m ++ 128 :: (List.replicate ((119 - m.length % 64) % 64) 0 ++ be64Bytes (m.length * 8))

/- CRC32, IEEE polynomial, reflected form, as in Go hash/crc32. -/

def crc32Shift (c : Nat) : Nat := if c % 2 = 1 then (c / 2) ^^^ 3988292384 else c / 2

def crc32Byte (c b : Nat) : Nat :=
  crc32Shift (crc32Shift (crc32Shift (crc32Shift
    (crc32Shift (crc32Shift (crc32Shift (crc32Shift (c ^^^ (b % 256)))))))))

def crc32 (bs : List Nat) : Nat := (bs.foldl crc32Byte 4294967295) ^^^ 4294967295

/- MD5 (RFC 1321), as in Go crypto/md5. -/

def md5K : List Nat :=
  [3614090360, 3905402710, 606105819, 3250441966,
   4118548399, 1200080426, 2821735955, 4249261313,
   1770035416, 2336552879, 4294925233, 2304563134,
   1804603682, 4254626195, 2792965006, 1236535329,
   4129170786, 3225465664, 643717713, 3921069994,
   3593408605, 38016083, 3634488961, 3889429448,
   568446438, 3275163606, 4107603335, 1163531501,
   2850285829, 4243563512, 1735328473, 2368359562,
   4294588738, 2272392833, 1839030562, 4259657740,
   2763975236, 1272893353, 4139469664, 3200236656,
   681279174, 3936430074, 3572445317, 76029189,
   3654602809, 3873151461, 530742520, 3299628645,
   4096336452, 1126891415, 2878612391, 4237533241,
   1700485571, 2399980690, 4293915773, 2240044497,
   1873313359, 4264355552, 2734768916, 1309151649,
   4149444226, 3174756917, 718787259, 3951481745]

def md5S : List Nat :=
  [7, 12, 17, 22, 7, 12, 17, 22, 7, 12, 17, 22, 7, 12, 17, 22,
   5, 9, 14, 20, 5, 9, 14, 20, 5, 9, 14, 20, 5, 9, 14, 20,
   4, 11, 16, 23, 4, 11, 16, 23, 4, 11, 16, 23, 4, 11, 16, 23,
   6, 10, 15, 21, 6, 10, 15, 21, 6, 10, 15, 21, 6, 10, 15, 21]

def md5Step (M : List Nat) (st : Nat × Nat × Nat × Nat) (i : Nat) : Nat × Nat × Nat × Nat :=
  match st with
  | (a, b, c, d) =>
    let f :=
      if i < 16 then (b &&& c) ||| ((b ^^^ 4294967295) &&& d)
      else if i < 32 then (d &&& b) ||| ((d ^^^ 4294967295) &&& c)
      else if i < 48 then b ^^^ c ^^^ d
      else c ^^^ (b ||| (d ^^^ 4294967295))
    let g :=
      if i < 16 then i
      else if i < 32 then (5 * i + 1) % 16
      else if i < 48 then (3 * i + 5) % 16
      else (7 * i) % 16
    let t := mask32 (a + f + md5K.getD i 0 + M.getD g 0)
    (d, mask32 (b + rotl32 t (md5S.getD i 0)), b, c)

def md5Compress (st : Nat × Nat × Nat × Nat) (M : List Nat) : Nat × Nat × Nat × Nat :=
  match st, (List.range 64).foldl (md5Step M) st with
  | (a0, b0, c0, d0), (a, b, c, d) =>
      (mask32 (a0 + a), mask32 (b0 + b), mask32 (c0 + c), mask32 (d0 + d))

def md5Bytes (m : List Nat) : List Nat :=
  match blocks16 md5Compress (1732584193, 4023233417, 2562383102, 271733878) (leWords (padMD m)) with
  | (a, b, c, d) => le32 a ++ le32 b ++ le32 c ++ le32 d

/- SHA-1 (FIPS 180-1), as in Go crypto/sha1. -/

def sha1W (M : List Nat) : List Nat :=
  (List.range 80).foldl
    (fun ws i =>
      ws ++ [if i < 16 then M.getD i 0
             else rotl32 (ws.getD (i - 3) 0 ^^^ ws.getD (i - 8) 0 ^^^ ws.getD (i - 14) 0 ^^^ ws.getD (i - 16) 0) 1])
    []

def sha1Step (w : List Nat) (st : Nat × Nat × Nat × Nat × Nat) (i : Nat) :
    Nat × Nat × Nat × Nat × Nat :=
  match st with
  | (a, b, c, d, e) =>
    let f :=
      if i < 20 then (b &&& c) ||| ((b ^^^ 4294967295) &&& d)
      else if i < 40 then b ^^^ c ^^^ d
      else if i < 60 then (b &&& c) ||| (b &&& d) ||| (c &&& d)
      else b ^^^ c ^^^ d
    let k :=
      if i < 20 then 1518500249
      else if i < 40 then 1859775393
      else if i < 60 then 2400959708
      else 3395469782
    let t := mask32 (rotl32 a 5 + f + e + k + w.getD i 0)
    (t, a, rotl32 b 30, c, d)

def sha1Compress (st : Nat × Nat × Nat × Nat × Nat) (M : List Nat) :
    Nat × Nat × Nat × Nat × Nat :=
  match st, (List.range 80).foldl (sha1Step (sha1W M)) st with
  | (a0, b0, c0, d0, e0), (a, b, c, d, e) =>
      (mask32 (a0 + a), mask32 (b0 + b), mask32 (c0 + c), mask32 (d0 + d), mask32 (e0 + e))

def sha1Bytes (m : List Nat) : List Nat :=
  match blocks16 sha1Compress (1732584193, 4023233417, 2562383102, 271733878, 3285377520)
      (beWords (padSHA m)) with
  | (a, b, c, d, e) => be32 a ++ be32 b ++ be32 c ++ be32 d ++ be32 e

/- SHA-256 (FIPS 180-4), as in Go crypto/sha256. -/

def sha256K : List Nat :=
  [1116352408, 1899447441, 3049323471, 3921009573, 961987163, 1508970993, 2453635748, 2870763221,
   3624381080, 310598401, 607225278, 1426881987, 1925078388, 2162078206, 2614888103, 3248222580,
   3835390401, 4022224774, 264347078, 604807628, 770255983, 1249150122, 1555081692, 1996064986,
   2554220882, 2821834349, 2952996808, 3210313671, 3336571891, 3584528711, 113926993, 338241895,
   666307205, 773529912, 1294757372, 1396182291, 1695183700, 1986661051, 2177026350, 2456956037,
   2730485921, 2820302411, 3259730800, 3345764771, 3516065817, 3600352804, 4094571909, 275423344,
   430227734, 506948616, 659060556, 883997877, 958139571, 1322822218, 1537002063, 1747873779,
   1955562222, 2024104815, 2227730452, 2361852424, 2428436474, 2756734187, 3204031479, 3329325298]

def s256Sig0 (x : Nat) : Nat := rotr32 x 7 ^^^ rotr32 x 18 ^^^ (x >>> 3)

def s256Sig1 (x : Nat) : Nat := rotr32 x 17 ^^^ rotr32 x 19 ^^^ (x >>> 10)

def s256BigSig0 (x : Nat) : Nat := rotr32 x 2 ^^^ rotr32 x 13 ^^^ rotr32 x 22

def s256BigSig1 (x : Nat) : Nat := rotr32 x 6 ^^^ rotr32 x 11 ^^^ rotr32 x 25

def sha256W (M : List Nat) : List Nat :=
  (List.range 64).foldl
    (fun ws i =>
      ws ++ [if i < 16 then M.getD i 0
             else mask32 (ws.getD (i - 16) 0 + s256Sig0 (ws.getD (i - 15) 0) +
                          ws.getD (i - 7) 0 + s256Sig1 (ws.getD (i - 2) 0))])
    []

def sha256Step (w : List Nat) (st : Nat × Nat × Nat × Nat × Nat × Nat × Nat × Nat) (i : Nat) :
    Nat × Nat × Nat × Nat × Nat × Nat × Nat × Nat :=
  match st with
  | (a, b, c, d, e, f, g, h) =>
    let ch := (e &&& f) ^^^ ((e ^^^ 4294967295) &&& g)
    let t1 := mask32 (h + s256BigSig1 e + ch + sha256K.getD i 0 + w.getD i 0)
    let maj := (a &&& b) ^^^ (a &&& c) ^^^ (b &&& c)
    let t2 := mask32 (s256BigSig0 a + maj)
    (mask32 (t1 + t2), a, b, c, mask32 (d + t1), e, f, g)

def sha256Compress (st : Nat × Nat × Nat × Nat × Nat × Nat × Nat × Nat) (M : List Nat) :
    Nat × Nat × Nat × Nat × Nat × Nat × Nat × Nat :=
  match st, (List.range 64).foldl (sha256Step (sha256W M)) st with
  | (a0, b0, c0, d0, e0, f0, g0, h0), (a, b, c, d, e, f, g, h) =>
      (mask32 (a0 + a), mask32 (b0 + b), mask32 (c0 + c), mask32 (d0 + d),
       mask32 (e0 + e), mask32 (f0 + f), mask32 (g0 + g), mask32 (h0 + h))

def sha256Bytes (m : List Nat) : List Nat :=
  match blocks16 sha256Compress
      (1779033703, 3144134277, 1013904242, 2773480762, 1359893119, 2600822924, 528734635, 1541459225)
      (beWords (padSHA m)) with
  | (a, b, c, d, e, f, g, h) =>
      be32 a ++ be32 b ++ be32 c ++ be32 d ++ be32 e ++ be32 f ++ be32 g ++ be32 h

/- Hex encoding. Go fmt %x on a byte slice pads every byte to two lowercase
   hex digits; %x on a uint32 prints the value without leading zeros. -/

def hexDigitChar (n : Nat) : Char := if n < 10 then Char.ofNat (48 + n) else Char.ofNat (87 + n)

def hexByte (b : Nat) : List Char := [hexDigitChar (b / 16 % 16), hexDigitChar (b % 16)]

def bytesToHex (bs : List Nat) : List Char := bs.foldr (fun b acc => hexByte b ++ acc) []

def natHexNoPad (n : Nat) : List Char := Nat.toDigits 16 n

/- Character classes of the Go regexes: \w is ASCII [0-9A-Za-z_], and the
   filename class in the patterns is [\w.]. -/

def isWordChar (c : Char) : Bool :=
  (('0' ≤ c && c ≤ '9') || ('A' ≤ c && c ≤ 'Z') || ('a' ≤ c && c ≤ 'z') || c = '_')

def isFnameChar (c : Char) : Bool := isWordChar c || c = '.'

def isHexChar (c : Char) : Bool :=
  (('0' ≤ c && c ≤ '9') || ('a' ≤ c && c ≤ 'f') || ('A' ≤ c && c ≤ 'F'))

/- Data model, from internal/sfv/sfv.go. -/

inductive ChecksumType
  | Unknown
  | CRC32
  | MD5
  | SHA1
  | SHA256
deriving DecidableEq

inductive ChecksumStatus
  | Unknown
  | OK
  | CheckSumOK
  | CheckSumNoMatch
  | FailedCheckSum
  | NotFound
  | NotFile
  | StatFailed
deriving DecidableEq

structure ChecksumFile where
  ChecksumType : ChecksumType
  Status : ChecksumStatus
  Filename : List Char
  Filesize : Nat
  Checksum : List Char
  ChecksumWant : List Char
deriving DecidableEq

def StringToType (t : List Char) : ChecksumType :=
  if t = "crc32".toList then .CRC32
  else if t = "md5".toList then .MD5
  else if t = "sha1".toList then .SHA1
  else if t = "sha256".toList then .SHA256
  else .Unknown

/- Filesystem model: what opening and stat-ing a path yields. A regular file
   carries its readable content; readErr true means the read loop hits an
   I/O error other than io.EOF after consuming that content. -/

inductive FsNode
  | noOpen
  | noStat
  | dir
  | file (content : List Nat) (readErr : Bool)

def Fs : Type := List Char → FsNode

/- File probe, from verifyChecksumFile: open, stat, IsDir checks; on the
   success path Status becomes OK and Filesize the stat size, on each
   failure only Status is written (Filesize keeps its prior value, which is
   zero for every entry the parser builds). -/

def verifyChecksumFile (fs : Fs) (e : ChecksumFile) : ChecksumFile :=
  match fs e.Filename with
  | .noOpen => { e with Status := .NotFound }
  | .noStat => { e with Status := .StatFailed }
  | .dir => { e with Status := .NotFile }
  | .file c _ => { e with Status := .OK, Filesize := c.length }

/- File probe on the creation path, from createChecksumFile: builds the
   zero-valued entry for the given type and filename, then runs the same
   open, stat, IsDir sequence (the goto end branches). -/

def createChecksumFile (fs : Fs) (t : ChecksumType) (filename : List Char) : ChecksumFile :=
  let e : ChecksumFile := ⟨t, .Unknown, filename, 0, [], []⟩
  match fs filename with
  | .noOpen => { e with Status := .NotFound }
  | .noStat => { e with Status := .StatFailed }
  | .dir => { e with Status := .NotFile }
  | .file c _ => { e with Status := .OK, Filesize := c.length }

/- Hashing stage, from calculateChecksum. Entries whose Status is not OK
   are returned untouched (early return). Otherwise the read loop feeds the
   readable content to the hasher; a read error other than io.EOF assigns
   StatusFailedCheckSum and breaks. The final switch then runs regardless
   and, for each of the four known types, overwrites Status with
   StatusCheckSumOK and stores the hex digest of the bytes that were read.
   If the open at the top fails (error deliberately ignored in the source),
   every read errors at once, so the digest is that of the empty stream.
   With TypeUnknown the source allocates no buffer and its read loop never
   terminates; no engine flow reaches that case (the parser only emits the
   four known types and Create callers validate the type first), and the
   model leaves the entry unchanged there. -/

def calculateChecksum (fs : Fs) (e : ChecksumFile) : ChecksumFile :=
  if e.Status = .OK then
    let bytes : List Nat :=
      match fs e.Filename with
      | .file c _ => c
      | _ => []
    match e.ChecksumType with
    | .Unknown => e
    | .CRC32 => { e with Status := .CheckSumOK, Checksum := natHexNoPad (crc32 bytes) }
    | .MD5 => { e with Status := .CheckSumOK, Checksum := bytesToHex (md5Bytes bytes) }
    | .SHA1 => { e with Status := .CheckSumOK, Checksum := bytesToHex (sha1Bytes bytes) }
    | .SHA256 => { e with Status := .CheckSumOK, Checksum := bytesToHex (sha256Bytes bytes) }
  else e

/- Manifest parser, from parseSfvFile. Each regex is embedded as a direct
   matcher; the patterns are anchored and their character classes exclude
   the separators, so each one admits at most one decomposition of a line.
   matchCrc32 embeds `^([\w\.]+) ([\w]\x7b8\x7d)$`. -/

def matchCrc32 (l : List Char) : Option (List Char × List Char) :=
  if l.length < 10 then none
  else if (l.take (l.length - 9)).all isFnameChar && (l.drop (l.length - 9)).take 1 = [' '] &&
          (l.drop (l.length - 8)).all isWordChar then
    some (l.take (l.length - 9), l.drop (l.length - 8))
  else none

/- matchMd5 embeds `^MD5 \(([\w\.]+)\) = ([\w]\x7b32\x7d)$`. -/

def matchMd5 (l : List Char) : Option (List Char × List Char) :=
  if l.length < 42 then none
  else if l.take 5 = "MD5 (".toList && ((l.drop 5).take (l.length - 41)).all isFnameChar &&
          (l.drop (l.length - 36)).take 4 = ") = ".toList &&
          (l.drop (l.length - 32)).all isWordChar then
    some ((l.drop 5).take (l.length - 41), l.drop (l.length - 32))
  else none

/- matchSha k embeds `^([\w]\x7bk\x7d)  ([\w\.]+)$`, with k = 40 for the
   SHA-1 pattern and k = 64 for the SHA-256 pattern. -/

def matchSha (k : Nat) (l : List Char) : Option (List Char × List Char) :=
  if l.length < k + 3 then none
  else if (l.take k).all isWordChar && (l.drop k).take 2 = [' ', ' '] &&
          (l.drop (k + 2)).all isFnameChar then
    some (l.drop (k + 2), l.take k)
  else none

/- One line of the parser loop. The source slices line[0:1] before anything
   else, which panics on an empty line (err); a leading semicolon or a line
   matching no pattern is skipped; a matched line builds an entry with the
   matched type, filename and expected digest. -/

inductive LineResult
  | err
  | skip
  | entry (e : ChecksumFile)
deriving DecidableEq

def parseLine (l : List Char) : LineResult :=
  match l with
  | [] => .err
  | c :: _ =>
    if c = ';' then .skip
    else
      match matchCrc32 l with
      | some (f, s) => .entry ⟨.CRC32, .Unknown, f, 0, [], s⟩
      | none =>
        match matchMd5 l with
        | some (f, s) => .entry ⟨.MD5, .Unknown, f, 0, [], s⟩
        | none =>
          match matchSha 40 l with
          | some (f, s) => .entry ⟨.SHA1, .Unknown, f, 0, [], s⟩
          | none =>
            match matchSha 64 l with
            | some (f, s) => .entry ⟨.SHA256, .Unknown, f, 0, [], s⟩
            | none => .skip

/- The parser over all lines: every matched entry is probed at once and
   appended (probe failures included); sizes of probed entries accumulate
   into the progress total; a panic aborts the whole parse (none). -/

def parseSfvLines (fs : Fs) : List (List Char) → Option (Nat × List ChecksumFile)
  | [] => some (0, [])
  | l :: rest =>
    match parseLine l with
    | .err => none
    | .skip => parseSfvLines fs rest
    | .entry e =>
      let e := verifyChecksumFile fs e
      match parseSfvLines fs rest with
      | none => none
      | some (sz, es) => some (e.Filesize + sz, e :: es)

/- Manifest writer, from WriteToFile: a header comment line, then one line
   per entry whose Status is StatusCheckSumOK, formatted per its type. -/

def headerLine (version commit date : List Char) : List Char :=
  "; Generated by gosfv version ".toList ++ version ++ ['('] ++ commit ++ ") at ".toList ++ date

def writeLine (e : ChecksumFile) : Option (List Char) :=
  match e.ChecksumType with
  | .CRC32 => some (e.Filename ++ [' '] ++ e.Checksum)
  | .MD5 => some ("MD5 (".toList ++ e.Filename ++ ") = ".toList ++ e.Checksum)
  | .SHA1 => some (e.Checksum ++ [' ', ' '] ++ e.Filename)
  | .SHA256 => some (e.Checksum ++ [' ', ' '] ++ e.Filename)
  | .Unknown => none

def writeToFile (es : List ChecksumFile) (version commit date : List Char) : List (List Char) :=
  headerLine version commit date ::
    es.filterMap (fun e => if e.Status = .CheckSumOK then writeLine e else none)

/- Orchestrator, from Create and Verify. Create probes each input path and
   then hashes each entry; Verify parses the manifest (probing each entry),
   hashes each entry, and demotes CheckSumOK entries whose computed digest
   differs from the expected one. -/

def Create (fs : Fs) (t : ChecksumType) (files : List (List Char)) : List ChecksumFile :=
  (files.map (createChecksumFile fs t)).map (calculateChecksum fs)

def verifyStep (fs : Fs) (e : ChecksumFile) : ChecksumFile :=
  let c := calculateChecksum fs e
  if c.Status = .CheckSumOK ∧ c.Checksum ≠ c.ChecksumWant then { c with Status := .CheckSumNoMatch }
  else c

def Verify (fs : Fs) (lines : List (List Char)) : Option (List ChecksumFile) :=
  match parseSfvLines fs lines with
  | none => none
  | some (_, es) => some (es.map (verifyStep fs))

/- Spec-side description of the probe outcome, following the wording of the
   File Probe contract: open failure gives NotFound and size 0, a stat
   failure gives StatFailed and size 0, a directory gives NotAFile and size
   0, and a regular file gives OK with the byte length of the file. Used
   only to compare the probe functions against the specification. -/

def probeSpec : FsNode → ChecksumStatus × Nat
  | .noOpen => (.NotFound, 0)
  | .noStat => (.StatFailed, 0)
  | .dir => (.NotFile, 0)
  | .file c _ => (.OK, c.length)

/- Concrete fixtures used by the closed theorems and witnesses below. -/

def aFile : List Char := "a.bin".toList

def fsEmptyA : Fs := fun f => if f = aFile then .file [] false else .noOpen

def fsReadErrA : Fs := fun _ => .file [] true

def entryOkOf (t : ChecksumType) : ChecksumFile := ⟨t, .OK, aFile, 0, [], []⟩

def eNotFound : ChecksumFile := ⟨.CRC32, .NotFound, aFile, 0, [], []⟩

def hdrV : List Char := "1.0".toList

def hdrC : List Char := "abcdef".toList

def hdrD : List Char := "2021-01-01T00:00:00Z".toList

def mLine : List Char := "a.bin 0123abcd".toList

/- Helper lemmas. -/

theorem matchCrc32_digest (l f s : List Char) (h : matchCrc32 l = some (f, s)) :
    s.all isWordChar = true ∧ s.length = 8 := by
  unfold matchCrc32 at h
  split at h
  · simp at h
  · split at h
    · rename_i hlen hguard
      simp only [Option.some.injEq, Prod.mk.injEq] at h
      obtain ⟨hf, hs⟩ := h
      subst hs
      simp only [Bool.and_eq_true, decide_eq_true_eq] at hguard
      refine ⟨hguard.2, ?_⟩
      simp only [List.length_drop]
      omega
    · simp at h

theorem matchMd5_digest (l f s : List Char) (h : matchMd5 l = some (f, s)) :
    s.all isWordChar = true ∧ s.length = 32 := by
  unfold matchMd5 at h
  split at h
  · simp at h
  · split at h
    · rename_i hlen hguard
      simp only [Option.some.injEq, Prod.mk.injEq] at h
      obtain ⟨hf, hs⟩ := h
      subst hs
      simp only [Bool.and_eq_true, decide_eq_true_eq] at hguard
      refine ⟨hguard.2, ?_⟩
      simp only [List.length_drop]
      omega
    · simp at h

theorem matchSha_digest (k : Nat) (l f s : List Char) (h : matchSha k l = some (f, s)) :
    s.all isWordChar = true ∧ s.length = k := by
  unfold matchSha at h
  split at h
  · simp at h
  · split at h
    · rename_i hlen hguard
      simp only [Option.some.injEq, Prod.mk.injEq] at h
      obtain ⟨hf, hs⟩ := h
      subst hs
      simp only [Bool.and_eq_true, decide_eq_true_eq] at hguard
      refine ⟨hguard.1.1, ?_⟩
      simp only [List.length_take]
      omega
    · simp at h

theorem calculateChecksum_preserves_want (fs : Fs) (e : ChecksumFile) :
    (calculateChecksum fs e).ChecksumWant = e.ChecksumWant := by
  obtain ⟨t, st, fn, sz, cs, cw⟩ := e
  unfold calculateChecksum
  dsimp only
  split
  · cases t <;> rfl
  · rfl

/-- C1: the claim states that an entry entering the hashing stage with
status OK whose read fails with an error other than clean end-of-stream
ends with status ChecksumFailed and an empty Checksum. In the source the
read loop does assign StatusFailedCheckSum, but the switch that follows
runs unconditionally and overwrites the status with StatusCheckSumOK and
the digest of the bytes read before the error. Evaluated here at a
concrete failing input: an MD5 entry whose file read errors immediately
ends with StatusCheckSumOK and the digest of the empty stream. -/
theorem c1_read_error_masked :
    (calculateChecksum fsReadErrA (entryOkOf .MD5)).Status = .CheckSumOK ∧
    (calculateChecksum fsReadErrA (entryOkOf .MD5)).Status ≠ .FailedCheckSum ∧
    (calculateChecksum fsReadErrA (entryOkOf .MD5)).Checksum ≠ [] := by
  decide

/-- C2: once the status of an entry is one of the terminal failure states
NotFound, NotAFile, StatFailed or ChecksumFailed, no later engine
operation changes it: the hashing stage returns the entry untouched (its
early return fires because the status is not OK), and the verification
comparison step leaves it unchanged (the demotion guard requires status
CheckSumOK); writing never mutates entries. -/
theorem c2_terminal_status_preserved (fs : Fs) (e : ChecksumFile)
    (h : e.Status = .NotFound ∨ e.Status = .NotFile ∨ e.Status = .StatFailed ∨
         e.Status = .FailedCheckSum) :
    calculateChecksum fs e = e ∧ verifyStep fs e = e := by
  have hok : ¬ e.Status = .OK := by rcases h with h | h | h | h <;> simp [h]
  have h1 : calculateChecksum fs e = e := by
    unfold calculateChecksum
    rw [if_neg hok]
  refine ⟨h1, ?_⟩
  have h2 : ¬ (e.Status = .CheckSumOK ∧ e.Checksum ≠ e.ChecksumWant) := by
    rcases h with h | h | h | h <;> simp [h]
  unfold verifyStep
  rw [h1, if_neg h2]

theorem c2_witness :
    (eNotFound.Status = .NotFound ∨ eNotFound.Status = .NotFile ∨
     eNotFound.Status = .StatFailed ∨ eNotFound.Status = .FailedCheckSum) ∧
    (calculateChecksum fsEmptyA eNotFound = eNotFound ∧ verifyStep fsEmptyA eNotFound = eNotFound) :=
  ⟨Or.inl rfl, c2_terminal_status_preserved fsEmptyA eNotFound (Or.inl rfl)⟩

/-- C3: the claim states that hashing readable regular files via Create
and writing via WriteToFile yields a manifest whose every line is
re-accepted by the parser, so that Verify yields ChecksumOK for every
entry. Evaluated at a concrete failing input: the empty regular file
a.bin hashed with CRC32. Create succeeds (status CheckSumOK) but the
digest is written with %x and no zero padding, so the manifest line is
`a.bin 0`; the CRC32 pattern demands exactly eight word characters, the
line matches no pattern, and Verify over the written manifest returns no
entry at all for the file. -/
theorem c3_roundtrip_fails_for_crc32 :
    (Create fsEmptyA .CRC32 [aFile]).map (fun e => e.Status) = [.CheckSumOK] ∧
    writeToFile (Create fsEmptyA .CRC32 [aFile]) hdrV hdrC hdrD =
      [headerLine hdrV hdrC hdrD, aFile ++ [' ', '0']] ∧
    parseLine (aFile ++ [' ', '0']) = .skip ∧
    Verify fsEmptyA (writeToFile (Create fsEmptyA .CRC32 [aFile]) hdrV hdrC hdrD) = some [] := by
  decide

set_option maxRecDepth 40000 in
/-- C4: the claim states that the hashing stage always produces 8 hex
characters for CRC32 (and 32, 40, 64 for MD5, SHA-1, SHA-256), and that
the empty input yields 00000000 for CRC32 together with the standard MD5,
SHA-1 and SHA-256 empty digests. Evaluated at the failing input, the
empty stream: the MD5, SHA-1 and SHA-256 digests are exactly the listed
vectors, but the CRC32 digest is the single character 0 (the source
formats the uint32 with %x, which emits no leading zeros), not the eight
characters 00000000. -/
theorem c4_empty_input_digests :
    (calculateChecksum fsEmptyA (entryOkOf .CRC32)).Checksum = ['0'] ∧
    (calculateChecksum fsEmptyA (entryOkOf .CRC32)).Checksum.length ≠ 8 ∧
    (calculateChecksum fsEmptyA (entryOkOf .MD5)).Checksum =
      "d41d8cd98f00b204e9800998ecf8427e".toList ∧
    (calculateChecksum fsEmptyA (entryOkOf .SHA1)).Checksum =
      "da39a3ee5e6b4b0d3255bfef95601890afd80709".toList ∧
    (calculateChecksum fsEmptyA (entryOkOf .SHA256)).Checksum =
      "e3b0c44298fc1c149afbf4c8996fb92427ae41e4649b934ca495991b7852b855".toList := by
  decide

/-- C5 counterexample: the claim states that every line that begins with a
semicolon or matches no pattern is skipped without error, including an
empty line. In the source the comment check slices line[0:1] before
anything else, which panics on an empty line: parsing a manifest that
consists of one empty line aborts instead of returning the empty entry
sequence. -/
theorem c5_empty_line_aborts :
    parseLine [] = .err ∧ parseSfvLines fsEmptyA [[]] = none := by
  decide

/-- C5 amended: every non-empty manifest line that begins with a semicolon
or matches none of the four patterns is skipped without error and without
adding an entry, and parsing continues with the remaining lines; an empty
line, however, makes the parser panic. -/
theorem c5_nonempty_unmatched_skipped (fs : Fs) (l : List Char) (rest : List (List Char))
    (hne : l ≠ [])
    (h : l.head? = some ';' ∨
         (matchCrc32 l = none ∧ matchMd5 l = none ∧ matchSha 40 l = none ∧ matchSha 64 l = none)) :
    parseSfvLines fs (l :: rest) = parseSfvLines fs rest := by
  cases l with
  | nil => exact absurd rfl hne
  | cons c cs =>
    rcases h with h | ⟨h1, h2, h3, h4⟩
    · have hc : c = ';' := by simpa using h
      simp [parseSfvLines, parseLine, hc]
    · by_cases hc : c = ';'
      · simp [parseSfvLines, parseLine, hc]
      · simp [parseSfvLines, parseLine, hc, h1, h2, h3, h4]

theorem c5_witness :
    ([';', 'x'] ≠ ([] : List Char)) ∧
    ([';', 'x'].head? = some ';' ∨
     (matchCrc32 [';', 'x'] = none ∧ matchMd5 [';', 'x'] = none ∧
      matchSha 40 [';', 'x'] = none ∧ matchSha 64 [';', 'x'] = none)) ∧
    parseSfvLines fsEmptyA [[';', 'x'], mLine] = parseSfvLines fsEmptyA [mLine] :=
  ⟨by decide, Or.inl rfl,
   c5_nonempty_unmatched_skipped fsEmptyA [';', 'x'] [mLine] (by decide) (Or.inl rfl)⟩

/-- C6: the probe classifies every path exactly as the spec describes:
open failure gives NotFound and size 0, a stat failure gives StatFailed
and size 0, a directory gives NotAFile and size 0, and a regular file
gives OK with the byte length of the file; the probe returns a status in
every case rather than letting any failure escape. Stated for both probe
functions of the source: verifyChecksumFile acting on an entry whose size
is still zero (as for every entry the parser builds), and
createChecksumFile which builds the entry itself. -/
theorem c6_probe_matches_spec (fs : Fs) (t : ChecksumType) (f : List Char) (e : ChecksumFile)
    (h0 : e.Filesize = 0) :
    ((verifyChecksumFile fs e).Status, (verifyChecksumFile fs e).Filesize) =
      probeSpec (fs e.Filename) ∧
    ((createChecksumFile fs t f).Status, (createChecksumFile fs t f).Filesize) =
      probeSpec (fs f) := by
  constructor
  · cases hn : fs e.Filename <;> simp [verifyChecksumFile, probeSpec, hn, h0]
  · cases hn : fs f <;> simp [createChecksumFile, probeSpec, hn]

theorem c6_witness :
    eNotFound.Filesize = 0 ∧
    (((verifyChecksumFile fsEmptyA eNotFound).Status,
      (verifyChecksumFile fsEmptyA eNotFound).Filesize) = probeSpec (fsEmptyA eNotFound.Filename) ∧
     ((createChecksumFile fsEmptyA .CRC32 aFile).Status,
      (createChecksumFile fsEmptyA .CRC32 aFile).Filesize) = probeSpec (fsEmptyA aFile)) :=
  ⟨rfl, c6_probe_matches_spec fsEmptyA .CRC32 aFile eNotFound rfl⟩

/-- C7: in the Verify loop the status after the comparison step is
CheckSumNoMatch-by-demotion exactly when the status after hashing was
CheckSumOK and the computed digest differs from the expected digest; the
comparison step never touches the Checksum and ChecksumWant fields, and
the hashing stage never touches ChecksumWant, so the expected digest is
still the value taken from the manifest while Checksum holds the digest
the hashing stage computed. -/
theorem c7_mismatch_demotion (fs : Fs) (e : ChecksumFile) :
    (((verifyStep fs e).Status = .CheckSumNoMatch ∧
      (calculateChecksum fs e).Status ≠ .CheckSumNoMatch) ↔
     ((calculateChecksum fs e).Status = .CheckSumOK ∧
      (calculateChecksum fs e).Checksum ≠ (calculateChecksum fs e).ChecksumWant)) ∧
    (verifyStep fs e).Checksum = (calculateChecksum fs e).Checksum ∧
    (verifyStep fs e).ChecksumWant = (calculateChecksum fs e).ChecksumWant ∧
    (calculateChecksum fs e).ChecksumWant = e.ChecksumWant := by
  have hw := calculateChecksum_preserves_want fs e
  unfold verifyStep
  by_cases h : (calculateChecksum fs e).Status = .CheckSumOK ∧
      (calculateChecksum fs e).Checksum ≠ (calculateChecksum fs e).ChecksumWant
  · rw [if_pos h]
    refine ⟨⟨fun _ => h, fun _ => ⟨rfl, by rw [h.1]; decide⟩⟩, rfl, rfl, hw⟩
  · rw [if_neg h]
    refine ⟨⟨fun hl => absurd hl.1 hl.2, fun hr => absurd hr h⟩, rfl, rfl, hw⟩

/-- C8 counterexample: the claim states that an accepted digest field
consists exclusively of hexadecimal characters. The patterns use the word
class, so the line `a.bin zzzzzzzz` is accepted as a CRC32 line although
its digest field contains no hexadecimal digit at all. -/
theorem c8_word_digest_accepted :
    parseLine ("a.bin zzzzzzzz".toList) =
      .entry ⟨.CRC32, .Unknown, "a.bin".toList, 0, [], "zzzzzzzz".toList⟩ ∧
    ("zzzzzzzz".toList.all isHexChar) = false := by
  decide

/-- C8 amended: for every manifest line accepted as a checksum line, the
extracted expected digest consists exclusively of word characters
(letters, digits and underscore) and has length exactly 8 for the CRC32
form, 32 for the MD5 form, 40 for the SHA-1 form and 64 for the SHA-256
form; a digest field containing a character outside the word class is
rejected by all four patterns. -/
theorem c8_digest_shape (l : List Char) (e : ChecksumFile) (h : parseLine l = .entry e) :
    e.ChecksumWant.all isWordChar = true ∧
    e.ChecksumWant.length =
      (match e.ChecksumType with
       | .CRC32 => 8
       | .MD5 => 32
       | .SHA1 => 40
       | .SHA256 => 64
       | .Unknown => 0) := by
  cases l with
  | nil => simp [parseLine] at h
  | cons c cs =>
    simp only [parseLine] at h
    by_cases hc : c = ';'
    · rw [if_pos hc] at h
      exact absurd h (by simp)
    · rw [if_neg hc] at h
      cases h1 : matchCrc32 (c :: cs) with
      | some p =>
        obtain ⟨f, s⟩ := p
        rw [h1] at h
        simp only [LineResult.entry.injEq] at h
        subst h
        simpa using matchCrc32_digest _ _ _ h1
      | none =>
        rw [h1] at h
        cases h2 : matchMd5 (c :: cs) with
        | some p =>
          obtain ⟨f, s⟩ := p
          rw [h2] at h
          simp only [LineResult.entry.injEq] at h
          subst h
          simpa using matchMd5_digest _ _ _ h2
        | none =>
          rw [h2] at h
          cases h3 : matchSha 40 (c :: cs) with
          | some p =>
            obtain ⟨f, s⟩ := p
            rw [h3] at h
            simp only [LineResult.entry.injEq] at h
            subst h
            simpa using matchSha_digest 40 _ _ _ h3
          | none =>
            rw [h3] at h
            cases h4 : matchSha 64 (c :: cs) with
            | some p =>
              obtain ⟨f, s⟩ := p
              rw [h4] at h
              simp only [LineResult.entry.injEq] at h
              subst h
              simpa using matchSha_digest 64 _ _ _ h4
            | none =>
              rw [h4] at h
              exact absurd h (by simp)

theorem c8_witness :
    parseLine mLine = .entry ⟨.CRC32, .Unknown, "a.bin".toList, 0, [], "0123abcd".toList⟩ ∧
    (ChecksumFile.mk .CRC32 .Unknown "a.bin".toList 0 [] "0123abcd".toList).ChecksumWant.all
      isWordChar = true ∧
    (ChecksumFile.mk .CRC32 .Unknown "a.bin".toList 0 [] "0123abcd".toList).ChecksumWant.length =
      (match (ChecksumFile.mk .CRC32 .Unknown "a.bin".toList 0 [] "0123abcd".toList).ChecksumType with
       | .CRC32 => 8
       | .MD5 => 32
       | .SHA1 => 40
       | .SHA256 => 64
       | .Unknown => 0) :=
  ⟨by decide,
   (c8_digest_shape mLine ⟨.CRC32, .Unknown, "a.bin".toList, 0, [], "0123abcd".toList⟩
     (by decide)).1,
   (c8_digest_shape mLine ⟨.CRC32, .Unknown, "a.bin".toList, 0, [], "0123abcd".toList⟩
     (by decide)).2⟩

/-- C9: Verify is deterministic in its inputs: two runs over equal
manifest contents and equal filesystem contents (Verify never modifies
either) produce entry sequences of the same length with the same status
at every position. -/
theorem c9_verify_deterministic (fs1 fs2 : Fs) (m1 m2 : List (List Char))
    (hfs : fs1 = fs2) (hm : m1 = m2) :
    (Verify fs1 m1).map (List.map (fun e => e.Status)) =
      (Verify fs2 m2).map (List.map (fun e => e.Status)) ∧
    (Verify fs1 m1).map List.length = (Verify fs2 m2).map List.length := by
  subst hfs
  subst hm
  exact ⟨rfl, rfl⟩

theorem c9_witness :
    (fsEmptyA = fsEmptyA) ∧ ([mLine] = [mLine]) ∧
    ((Verify fsEmptyA [mLine]).map (List.map (fun e => e.Status)) =
       (Verify fsEmptyA [mLine]).map (List.map (fun e => e.Status)) ∧
     (Verify fsEmptyA [mLine]).map List.length = (Verify fsEmptyA [mLine]).map List.length) :=
  ⟨rfl, rfl, c9_verify_deterministic fsEmptyA fsEmptyA [mLine] [mLine] rfl rfl⟩

end Gosfv
